import Mathlib

/-
Verification of the authorization/ownership core of the Secure Notes App.

Shallow embedding of:
  - app/auth/models.py   (User, role predicates)
  - app/rbac.py          (check_note_ownership, can_edit_note, can_delete_note, can_view_note)
  - app/notes/routes.py  (notes_home, view_note, edit_note, delete_note)
  - app/audit.py         (log_crud_event records, log_error records)

The SQLite notes table is modelled as a list of Note rows; the query
SELECT * FROM notes WHERE id = nid with fetchone() is the first row of the
list whose id field matches (List.find?).  Flask abort(404)/abort(403) in
check_note_ownership is modelled as Except.error 404 / Except.error 403;
the bare try/except wrappers in the can_* helpers catch any such error.
Route handlers are modelled as pure functions returning the HTTP response
together with the audit-stream records and error-stream records they emit
and the resulting notes table.
-/

/-- Roles stored in the users table: 'user', 'moderator', 'admin'. -/
inductive Role where
  | user
  | moderator
  | admin
deriving DecidableEq, Repr

/-- User model from app/auth/models.py (fields id, username, role). -/
structure User where
  id : Nat
  username : String
  role : Role
deriving DecidableEq, Repr

/-- User.is_admin: role == 'admin'. -/
def User.is_admin (u : User) : Bool := u.role == Role.admin

/-- User.is_moderator: role in ('moderator', 'admin'). -/
def User.is_moderator (u : User) : Bool :=
  u.role == Role.moderator || u.role == Role.admin

/-- User.is_user: role == 'user'. -/
def User.is_user (u : User) : Bool := u.role == Role.user

/-- Row of the notes table. The owner column is named user_id in the schema
(the spec calls it owner_id); created_at is a timestamp, modelled as Nat. -/
structure Note where
  id : Nat
  title : String
  content : String
  user_id : Nat
  created_at : Nat
deriving DecidableEq, Repr

/-- SELECT * FROM notes WHERE id = note_id, then fetchone(): the first row
of the table whose id matches, or none. -/
def getNote (s : List Note) (note_id : Nat) : Option Note :=
  s.find? (fun n => n.id == note_id)

/-- check_note_ownership(note_id, allow_admin) from app/rbac.py: fetch the
note; abort(404) when absent; return True for an admin when allow_admin,
or for the owner; otherwise abort(403).  abort(c) is Except.error c. -/
def check_note_ownership (u : User) (s : List Note) (note_id : Nat)
    (allow_admin : Bool) : Except Nat Bool :=
  match getNote s note_id with
  | none => Except.error 404
  | some note =>
    if allow_admin && u.is_admin then Except.ok true
    else if note.user_id == u.id then Except.ok true
    else Except.error 403

/-- can_edit_note(note_id) from app/rbac.py: an admin may edit any existing
note; everyone else goes through check_note_ownership with
allow_admin=False inside try/except, every abort becoming False. -/
def can_edit_note (u : User) (s : List Note) (note_id : Nat) : Bool :=
  if u.is_admin then
    (getNote s note_id).isSome
  else
    match check_note_ownership u s note_id false with
    | Except.ok _ => true
    | Except.error _ => false

/-- can_delete_note(note_id) from app/rbac.py: an admin or moderator may
delete any existing note; everyone else goes through check_note_ownership
with allow_admin=False inside try/except. -/
def can_delete_note (u : User) (s : List Note) (note_id : Nat) : Bool :=
  if u.is_admin || u.is_moderator then
    (getNote s note_id).isSome
  else
    match check_note_ownership u s note_id false with
    | Except.ok _ => true
    | Except.error _ => false

/-- can_view_note(note_id) from app/rbac.py: a moderator or admin may view
any existing note; everyone else goes through check_note_ownership with
allow_admin=False inside try/except. -/
def can_view_note (u : User) (s : List Note) (note_id : Nat) : Bool :=
  if u.is_moderator || u.is_admin then
    (getNote s note_id).isSome
  else
    match check_note_ownership u s note_id false with
    | Except.ok _ => true
    | Except.error _ => false

/-- Record written to the audit stream by log_crud_event in app/audit.py
(action, resource_type, resource_id, result, optional details). -/
structure AuditRecord where
  action : String
  resource_type : String
  resource_id : String
  result : String
  details : Option String
deriving DecidableEq, Repr

/-- Record written to the error stream by log_error in app/audit.py. -/
structure ErrorRecord where
  error_type : String
  message : String
deriving DecidableEq, Repr

/-- Outcome of a route handler: a rendered page, a redirect to the
dashboard, or an abort(code) HTTP error. -/
inductive Response where
  | ok
  | redirect
  | httpError (code : Nat)
deriving DecidableEq, Repr

/-- Everything a route handler produces: the HTTP response, the audit
records written to the audit stream (in order), the records written to
the error stream, and the notes table after the request. -/
structure RouteResult where
  response : Response
  audit : List AuditRecord
  errors : List ErrorRecord
  store : List Note
deriving DecidableEq, Repr

/-- Number of records with result DENIED in a list of audit records. -/
def countDenied (l : List AuditRecord) : Nat :=
  (l.filter (fun r => r.result == "DENIED")).length

/-- view_note(note_id) route from app/notes/routes.py: if can_view_note
fails, re-fetch the note, log a DENIED audit record and a 403 error record
when the note exists, and abort(403); otherwise fetch the note, abort(404)
when absent, log SUCCESS and render it. -/
def view_note (u : User) (s : List Note) (note_id : Nat) : RouteResult :=
  if !(can_view_note u s note_id) then
    match getNote s note_id with
    | some _ =>
      { response := Response.httpError 403
        audit := [{ action := "READ", resource_type := "NOTE",
                    resource_id := toString note_id, result := "DENIED",
                    details := some "Not owner" }]
        errors := [{ error_type := "403",
                     message := "View denied for note " ++ toString note_id }]
        store := s }
    | none =>
      { response := Response.httpError 403, audit := [], errors := [], store := s }
  else
    match getNote s note_id with
    | none =>
      { response := Response.httpError 404, audit := [], errors := [], store := s }
    | some _ =>
      { response := Response.ok
        audit := [{ action := "READ", resource_type := "NOTE",
                    resource_id := toString note_id, result := "SUCCESS",
                    details := none }]
        errors := []
        store := s }

/-- UPDATE notes SET title = t, content = c WHERE id = note_id. -/
def updateNote (s : List Note) (note_id : Nat) (t c : String) : List Note :=
  s.map (fun n =>
    if n.id == note_id then { n with title := t, content := c } else n)

/-- DELETE FROM notes WHERE id = note_id. -/
def deleteNoteRows (s : List Note) (note_id : Nat) : List Note :=
  s.filter (fun n => !(n.id == note_id))

/-- edit_note(note_id) route from app/notes/routes.py, with the
time-of-check/time-of-use window made explicit: s1 is the notes table read
by the initial can_edit_note check and the note fetch, s2 the table read
by the re-check performed after form validation and written by the UPDATE
(s1 = s2 when no concurrent change intervenes).  form_valid models
form.validate_on_submit(); t and c model the submitted title and content.
When can_edit_note fails the route logs a DENIED audit record and a 403
error record if the note exists, then aborts 403; when the note is absent
after an allowed check it aborts 404; a failing re-check aborts 403 with
no further logging; otherwise the UPDATE runs and SUCCESS is logged. -/
def edit_note2 (u : User) (s1 s2 : List Note) (note_id : Nat)
    (form_valid : Bool) (t c : String) : RouteResult :=
  if !(can_edit_note u s1 note_id) then
    match getNote s1 note_id with
    | some _ =>
      { response := Response.httpError 403
        audit := [{ action := "UPDATE", resource_type := "NOTE",
                    resource_id := toString note_id, result := "DENIED",
                    details := some "Not owner" }]
        errors := [{ error_type := "403",
                     message := "Edit denied for note " ++ toString note_id }]
        store := s2 }
    | none =>
      { response := Response.httpError 403, audit := [], errors := [], store := s2 }
  else
    match getNote s1 note_id with
    | none =>
      { response := Response.httpError 404, audit := [], errors := [], store := s2 }
    | some _ =>
      if form_valid then
        if !(can_edit_note u s2 note_id) then
          { response := Response.httpError 403, audit := [], errors := [], store := s2 }
        else
          { response := Response.redirect
            audit := [{ action := "UPDATE", resource_type := "NOTE",
                        resource_id := toString note_id, result := "SUCCESS",
                        details := some ("Title: " ++ t.take 50) }]
            errors := []
            store := updateNote s2 note_id t c }
      else
        { response := Response.ok, audit := [], errors := [], store := s2 }

/-- edit_note as it executes sequentially: the table does not change
between the initial check and the re-check before the UPDATE. -/
def edit_note (u : User) (s : List Note) (note_id : Nat)
    (form_valid : Bool) (t c : String) : RouteResult :=
  edit_note2 u s s note_id form_valid t c

/-- delete_note(note_id) route from app/notes/routes.py, with the
time-of-check/time-of-use window made explicit as in edit_note2: s1 is the
table read by the initial can_delete_note check and the note fetch, s2 the
table read by the re-check and written by the DELETE. -/
def delete_note2 (u : User) (s1 s2 : List Note) (note_id : Nat) : RouteResult :=
  if !(can_delete_note u s1 note_id) then
    match getNote s1 note_id with
    | some _ =>
      { response := Response.httpError 403
        audit := [{ action := "DELETE", resource_type := "NOTE",
                    resource_id := toString note_id, result := "DENIED",
                    details := some "Not owner" }]
        errors := [{ error_type := "403",
                     message := "Delete denied for note " ++ toString note_id }]
        store := s2 }
    | none =>
      { response := Response.httpError 403, audit := [], errors := [], store := s2 }
  else
    match getNote s1 note_id with
    | none =>
      { response := Response.httpError 404, audit := [], errors := [], store := s2 }
    | some _ =>
      if !(can_delete_note u s2 note_id) then
        { response := Response.httpError 403, audit := [], errors := [], store := s2 }
      else
        { response := Response.redirect
          audit := [{ action := "DELETE", resource_type := "NOTE",
                      resource_id := toString note_id, result := "SUCCESS",
                      details := none }]
          errors := []
          store := deleteNoteRows s2 note_id }

/-- delete_note as it executes sequentially: the table does not change
between the initial check and the re-check before the DELETE. -/
def delete_note (u : User) (s : List Note) (note_id : Nat) : RouteResult :=
  delete_note2 u s s note_id

/-- Descending created_at comparison: ORDER BY created_at DESC places a
before b exactly when b.created_at is at most a.created_at. -/
def byCreatedDesc (a b : Note) : Prop := b.created_at ≤ a.created_at

instance : DecidableRel byCreatedDesc := fun a b =>
  Nat.decLe b.created_at a.created_at

instance : IsTotal Note byCreatedDesc :=
  ⟨fun a b => Nat.le_total b.created_at a.created_at⟩

instance : IsTrans Note byCreatedDesc :=
  ⟨fun _ _ _ hab hbc => Nat.le_trans hbc hab⟩

/-- ORDER BY created_at DESC, modelled as a sort of the selected rows. -/
def sortDesc (l : List Note) : List Note := List.insertionSort byCreatedDesc l

/-- Role string computed for the dashboard audit detail in notes_home. -/
def roleString (u : User) : String :=
  if u.is_admin then "admin" else if u.is_moderator then "moderator" else "user"

/-- notes_home dashboard route from app/notes/routes.py: an admin or
moderator gets SELECT * FROM notes ORDER BY created_at DESC, anyone else
gets SELECT * FROM notes WHERE user_id = current_user.id ORDER BY
created_at DESC; one READ DASHBOARD SUCCESS audit record is logged. -/
def notes_home (u : User) (s : List Note) : List Note × List AuditRecord :=
  let notes :=
    if u.is_admin || u.is_moderator then sortDesc s
    else sortDesc (s.filter (fun n => n.user_id == u.id))
  (notes,
   [{ action := "READ", resource_type := "DASHBOARD", resource_id := "all",
      result := "SUCCESS",
      details := some ("Role: " ++ roleString u ++ ", Notes shown: "
                        ++ toString notes.length) }])

/-- One SELECT of the row with the given id (fetchone), in state-passing
form: the table is returned unchanged, a SELECT writes nothing. -/
def db_fetch_note (s : List Note) (note_id : Nat) : Option Note × List Note :=
  (getNote s note_id, s)

/-- check_note_ownership in state-passing form: every database access is
the single SELECT of db_fetch_note, and the resulting table is threaded
through to the caller. -/
def check_note_ownership_st (u : User) (note_id : Nat) (allow_admin : Bool)
    (s : List Note) : Except Nat Bool × List Note :=
  match db_fetch_note s note_id with
  | (none, s1) => (Except.error 404, s1)
  | (some note, s1) =>
    if allow_admin && u.is_admin then (Except.ok true, s1)
    else if note.user_id == u.id then (Except.ok true, s1)
    else (Except.error 403, s1)

/-- can_view_note in state-passing form: its only effects are the SELECT
statements of its two branches. -/
def can_view_note_st (u : User) (note_id : Nat) (s : List Note) :
    Bool × List Note :=
  if u.is_moderator || u.is_admin then
    match db_fetch_note s note_id with
    | (note, s1) => (note.isSome, s1)
  else
    match check_note_ownership_st u note_id false s with
    | (Except.ok _, s1) => (true, s1)
    | (Except.error _, s1) => (false, s1)

/-- Sample actors and notes used to instantiate the universally quantified
theorems below on concrete data. -/
def aliceUser : User := { id := 1, username := "alice", role := Role.user }

def bobUser : User := { id := 2, username := "bob", role := Role.user }

def adaAdmin : User := { id := 3, username := "ada", role := Role.admin }

def monaMod : User := { id := 4, username := "mona", role := Role.moderator }

def note1 : Note :=
  { id := 1, title := "n1", content := "c1", user_id := 1, created_at := 10 }

def note2 : Note :=
  { id := 2, title := "n2", content := "c2", user_id := 2, created_at := 20 }

def store0 : List Note := [note1, note2]

/-- note1 after a concurrent change of owner: same id, now owned by bob.
Used to exercise the time-of-check/time-of-use re-check. -/
def note1Stolen : Note :=
  { id := 1, title := "n1", content := "c1", user_id := 2, created_at := 10 }

def store1 : List Note := [note1Stolen, note2]

/-- An admin also satisfies is_moderator, since is_moderator tests
role in ('moderator', 'admin'). -/
theorem moderator_of_admin (u : User) (h : u.is_admin = true) :
    u.is_moderator = true := by
  simp only [User.is_admin, beq_iff_eq] at h
  simp [User.is_moderator, h]

/-- check_note_ownership on a missing note aborts 404. -/
theorem check_note_ownership_none (u : User) (s : List Note) (nid : Nat)
    (aa : Bool) (h : getNote s nid = none) :
    check_note_ownership u s nid aa = Except.error 404 := by
  unfold check_note_ownership
  rw [h]

/-- check_note_ownership on an existing note reduces to the admin and
ownership tests. -/
theorem check_note_ownership_some (u : User) (s : List Note) (nid : Nat)
    (aa : Bool) (note : Note) (h : getNote s nid = some note) :
    check_note_ownership u s nid aa =
      (if aa && u.is_admin then Except.ok true
       else if note.user_id == u.id then Except.ok true
       else Except.error 403) := by
  unfold check_note_ownership
  rw [h]

/-- can_view_note returns false on a missing note. -/
theorem can_view_note_none (u : User) (s : List Note) (nid : Nat)
    (h : getNote s nid = none) : can_view_note u s nid = false := by
  unfold can_view_note
  by_cases hm : (u.is_moderator || u.is_admin) = true
  · rw [if_pos hm, h]
    rfl
  · rw [if_neg hm, check_note_ownership_none u s nid false h]

/-- can_view_note on an existing note is the moderator-or-owner test. -/
theorem can_view_note_some (u : User) (s : List Note) (nid : Nat)
    (note : Note) (h : getNote s nid = some note) :
    can_view_note u s nid = (u.is_moderator || note.user_id == u.id) := by
  unfold can_view_note
  by_cases hm : (u.is_moderator || u.is_admin) = true
  · have hmod : u.is_moderator = true := by
      rcases Bool.or_eq_true_iff.mp hm with h1 | h1
      · exact h1
      · exact moderator_of_admin u h1
    rw [if_pos hm, h, hmod]
    rfl
  · have hmod : u.is_moderator = false := by
      by_cases h1 : u.is_moderator = true
      · exact absurd (Bool.or_eq_true_iff.mpr (Or.inl h1)) hm
      · exact Bool.eq_false_iff.mpr h1
    rw [if_neg hm, check_note_ownership_some u s nid false note h]
    by_cases ho : (note.user_id == u.id) = true
    · simp [ho, hmod]
    · simp [Bool.eq_false_iff.mpr ho, hmod]

/-- can_edit_note returns false on a missing note. -/
theorem can_edit_note_none (u : User) (s : List Note) (nid : Nat)
    (h : getNote s nid = none) : can_edit_note u s nid = false := by
  unfold can_edit_note
  by_cases ha : u.is_admin = true
  · rw [if_pos ha, h]
    rfl
  · rw [if_neg ha, check_note_ownership_none u s nid false h]

/-- can_edit_note on an existing note is the admin-or-owner test. -/
theorem can_edit_note_some (u : User) (s : List Note) (nid : Nat)
    (note : Note) (h : getNote s nid = some note) :
    can_edit_note u s nid = (u.is_admin || note.user_id == u.id) := by
  unfold can_edit_note
  by_cases ha : u.is_admin = true
  · rw [if_pos ha, h, ha]
    rfl
  · rw [if_neg ha, check_note_ownership_some u s nid false note h]
    by_cases ho : (note.user_id == u.id) = true
    · simp [ho, Bool.eq_false_iff.mpr ha]
    · simp [Bool.eq_false_iff.mpr ho, Bool.eq_false_iff.mpr ha]

/-- can_delete_note returns false on a missing note. -/
theorem can_delete_note_none (u : User) (s : List Note) (nid : Nat)
    (h : getNote s nid = none) : can_delete_note u s nid = false := by
  unfold can_delete_note
  by_cases hm : (u.is_admin || u.is_moderator) = true
  · rw [if_pos hm, h]
    rfl
  · rw [if_neg hm, check_note_ownership_none u s nid false h]

/-- can_delete_note on an existing note is the moderator-or-owner test
(the admin disjunct of the code is absorbed, since is_moderator already
holds for admins). -/
theorem can_delete_note_some (u : User) (s : List Note) (nid : Nat)
    (note : Note) (h : getNote s nid = some note) :
    can_delete_note u s nid = (u.is_moderator || note.user_id == u.id) := by
  unfold can_delete_note
  by_cases hm : (u.is_admin || u.is_moderator) = true
  · have hmod : u.is_moderator = true := by
      rcases Bool.or_eq_true_iff.mp hm with h1 | h1
      · exact moderator_of_admin u h1
      · exact h1
    rw [if_pos hm, h, hmod]
    rfl
  · have hmod : u.is_moderator = false := by
      by_cases h1 : u.is_moderator = true
      · exact absurd (Bool.or_eq_true_iff.mpr (Or.inr h1)) hm
      · exact Bool.eq_false_iff.mpr h1
    rw [if_neg hm, check_note_ownership_some u s nid false note h]
    by_cases ho : (note.user_id == u.id) = true
    · simp [ho, hmod]
    · simp [Bool.eq_false_iff.mpr ho, hmod]

/-- C2: for every actor and every existing note, can_edit_note returns
True (ALLOW) exactly when the actor's role is admin or the note's user_id
(its owner) equals the actor's id, and False (DENY) otherwise; in
particular a moderator who is not the owner is denied edit. -/
theorem can_edit_note_correct (u : User) (s : List Note) (nid : Nat)
    (note : Note) (h : getNote s nid = some note) :
    can_edit_note u s nid = (u.is_admin || note.user_id == u.id) ∧
    (u.role = Role.moderator → note.user_id ≠ u.id →
      can_edit_note u s nid = false) := by
  refine ⟨can_edit_note_some u s nid note h, fun hrole hown => ?_⟩
  rw [can_edit_note_some u s nid note h]
  simp [User.is_admin, hrole, hown]

/-- Witness for C2: in store0, note 2 exists and is owned by bob (id 2);
the moderator mona (id 4) is denied edit on it. -/
theorem can_edit_note_correct_witness :
    getNote store0 2 = some note2 ∧ can_edit_note monaMod store0 2 = false :=
  ⟨by decide,
   (can_edit_note_correct monaMod store0 2 note2 (by decide)).2
     (by decide) (by decide)⟩

/-- C3: for every actor and every existing note, can_view_note returns
True (ALLOW) exactly when is_moderator holds of the actor's role (true
for moderator or admin) or the note's user_id equals the actor's id, and
False (DENY) otherwise. -/
theorem can_view_note_correct (u : User) (s : List Note) (nid : Nat)
    (note : Note) (h : getNote s nid = some note) :
    can_view_note u s nid = (u.is_moderator || note.user_id == u.id) :=
  can_view_note_some u s nid note h

/-- Witness for C3: note 1 exists in store0 and is owned by alice; the
equation instantiates for the non-owner plain user bob, giving DENY. -/
theorem can_view_note_correct_witness :
    getNote store0 1 = some note1 ∧
    can_view_note bobUser store0 1
      = (bobUser.is_moderator || note1.user_id == bobUser.id) ∧
    can_view_note bobUser store0 1 = false :=
  ⟨by decide, can_view_note_correct bobUser store0 1 note1 (by decide),
   by decide⟩

/-- C4: for every existing note and every actor with role moderator who
does not own it, can_edit_note denies while can_delete_note and
can_view_note both allow on the same state. -/
theorem moderator_edit_asymmetry (u : User) (s : List Note) (nid : Nat)
    (note : Note) (hrole : u.role = Role.moderator)
    (h : getNote s nid = some note) (hown : note.user_id ≠ u.id) :
    can_edit_note u s nid = false ∧ can_delete_note u s nid = true ∧
    can_view_note u s nid = true := by
  have hmod : u.is_moderator = true := by
    simp [User.is_moderator, hrole]
  refine ⟨?_, ?_, ?_⟩
  · rw [can_edit_note_some u s nid note h]
    simp [User.is_admin, hrole, hown]
  · rw [can_delete_note_some u s nid note h, hmod]
    rfl
  · rw [can_view_note_some u s nid note h, hmod]
    rfl

/-- Witness for C4: the moderator mona (id 4) does not own note 1 in
store0: edit is denied, delete and view are allowed. -/
theorem moderator_edit_asymmetry_witness :
    can_edit_note monaMod store0 1 = false ∧
    can_delete_note monaMod store0 1 = true ∧
    can_view_note monaMod store0 1 = true :=
  moderator_edit_asymmetry monaMod store0 1 note1 (by decide) (by decide)
    (by decide)

/-- C9: check_note_ownership never returns False despite its documented
contract: for every actor, store, note id and allow_admin flag it either
returns True or aborts with 404 (note absent) or 403 (permission
lacking); Except.ok false is unreachable. -/
theorem check_note_ownership_never_false (u : User) (s : List Note)
    (nid : Nat) (aa : Bool) :
    check_note_ownership u s nid aa = Except.ok true ∨
    check_note_ownership u s nid aa = Except.error 404 ∨
    check_note_ownership u s nid aa = Except.error 403 := by
  unfold check_note_ownership
  split
  · right
    left
    rfl
  · split
    · left
      rfl
    · split
      · left
        rfl
      · right
        right
        rfl

/-- C10: for every actor, store and note id, can_view_note and
can_delete_note compute the same boolean: both allow exactly moderators
and admins on any existing note and owners on their own notes, and both
return false on a missing note. -/
theorem can_view_eq_can_delete (u : User) (s : List Note) (nid : Nat) :
    can_view_note u s nid = can_delete_note u s nid := by
  cases h : getNote s nid with
  | none =>
    rw [can_view_note_none u s nid h, can_delete_note_none u s nid h]
  | some note =>
    rw [can_view_note_some u s nid note h, can_delete_note_some u s nid note h]

/-- A true can_edit_note implies the note exists. -/
theorem can_edit_note_isSome (u : User) (s : List Note) (nid : Nat)
    (h : can_edit_note u s nid = true) : (getNote s nid).isSome = true := by
  cases hg : getNote s nid with
  | none =>
    rw [can_edit_note_none u s nid hg] at h
    exact absurd h (by simp)
  | some note => rfl

/-- A true can_delete_note implies the note exists. -/
theorem can_delete_note_isSome (u : User) (s : List Note) (nid : Nat)
    (h : can_delete_note u s nid = true) : (getNote s nid).isSome = true := by
  cases hg : getNote s nid with
  | none =>
    rw [can_delete_note_none u s nid hg] at h
    exact absurd h (by simp)
  | some note => rfl

/-- The row lookup succeeds for every note of the table. -/
theorem getNote_isSome_of_mem (s : List Note) (n : Note) (h : n ∈ s) :
    (getNote s n.id).isSome = true := by
  unfold getNote
  induction s with
  | nil => cases h
  | cons m t ih =>
    rcases List.mem_cons.mp h with rfl | ht
    · simp [List.find?_cons_of_pos]
    · by_cases hm : (m.id == n.id) = true
      · simp [List.find?_cons_of_pos, hm]
      · rw [List.find?_cons_of_neg]
        · exact ih ht
        · simp [hm]

/-- When the table has no duplicate ids, looking up the id of one of its
rows returns that very row. -/
theorem getNote_eq_of_mem_nodup (s : List Note) (n : Note)
    (hnd : (s.map Note.id).Nodup) (h : n ∈ s) : getNote s n.id = some n := by
  unfold getNote
  induction s with
  | nil => cases h
  | cons m t ih =>
    rw [List.map_cons, List.nodup_cons] at hnd
    rcases List.mem_cons.mp h with rfl | ht
    · simp [List.find?_cons_of_pos]
    · have hmne : (m.id == n.id) = false := by
        have h2 : n.id ∈ t.map Note.id := List.mem_map_of_mem Note.id ht
        exact beq_eq_false_iff_ne.mpr (fun he => hnd.1 (he ▸ h2))
      rw [List.find?_cons_of_neg]
      · exact ih hnd.2 ht
      · simp [hmne]

/-- The state-passing view check returns the boolean of can_view_note and
leaves the table unchanged. -/
theorem can_view_note_st_spec (u : User) (nid : Nat) (s : List Note) :
    can_view_note_st u nid s = (can_view_note u s nid, s) := by
  unfold can_view_note_st can_view_note check_note_ownership_st
    check_note_ownership db_fetch_note
  by_cases hm : (u.is_moderator || u.is_admin) = true
  · simp [hm]
  · simp only [hm, if_false]
    cases hg : getNote s nid with
    | none => simp [hg]
    | some note =>
      by_cases ho : (note.user_id == u.id) = true
      · simp [hg, ho]
      · simp [hg, ho]

/-- C5: the dashboard returns, for a plain user, exactly their own notes
and, for a moderator or admin, all notes, in both cases sorted by
created_at descending; and (for a table without duplicate ids, as the id
column is the primary key) every returned note passes can_view_note. -/
theorem notes_home_spec (u : User) (s : List Note) :
    (u.is_user = true →
      (notes_home u s).1.Perm (s.filter (fun n => n.user_id == u.id))) ∧
    (u.is_moderator = true → (notes_home u s).1.Perm s) ∧
    List.Sorted byCreatedDesc (notes_home u s).1 ∧
    ((s.map Note.id).Nodup →
      ∀ n, n ∈ (notes_home u s).1 → can_view_note u s n.id = true) := by
  refine ⟨?_, ?_, ?_, ?_⟩
  · intro hu
    have hrole : u.role = Role.user := by
      simpa [User.is_user] using hu
    have hc : (u.is_admin || u.is_moderator) = false := by
      simp [User.is_admin, User.is_moderator, hrole]
    unfold notes_home
    simp only [hc, Bool.false_eq_true, if_false]
    exact List.perm_insertionSort byCreatedDesc _
  · intro hm
    have hc : (u.is_admin || u.is_moderator) = true :=
      Bool.or_eq_true_iff.mpr (Or.inr hm)
    unfold notes_home
    simp only [hc, if_true]
    exact List.perm_insertionSort byCreatedDesc _
  · unfold notes_home
    by_cases hc : (u.is_admin || u.is_moderator) = true
    · simp only [hc, if_true]
      exact List.sorted_insertionSort byCreatedDesc _
    · simp only [hc, if_false]
      exact List.sorted_insertionSort byCreatedDesc _
  · intro hnd n hn
    unfold notes_home at hn
    by_cases hc : (u.is_admin || u.is_moderator) = true
    · simp only [hc, if_true] at hn
      have hmem : n ∈ s :=
        (List.perm_insertionSort byCreatedDesc s).mem_iff.mp hn
      have hview : (u.is_moderator || u.is_admin) = true := by
        rcases Bool.or_eq_true_iff.mp hc with h1 | h1
        · exact Bool.or_eq_true_iff.mpr (Or.inr h1)
        · exact Bool.or_eq_true_iff.mpr (Or.inl h1)
      unfold can_view_note
      rw [if_pos hview]
      exact getNote_isSome_of_mem s n hmem
    · simp only [hc, if_false] at hn
      have hmem :=
        (List.perm_insertionSort byCreatedDesc _).mem_iff.mp hn
      rw [List.mem_filter] at hmem
      have hview : (u.is_moderator || u.is_admin) = false := by
        rcases Bool.or_eq_false_iff.mp (Bool.eq_false_iff.mpr hc) with ⟨h1, h2⟩
        exact Bool.or_eq_false_iff.mpr ⟨h2, h1⟩
      unfold can_view_note
      rw [if_neg (by simp [hview]),
          check_note_ownership_some u s n.id false n
            (getNote_eq_of_mem_nodup s n hnd hmem.1)]
      simp [hmem.2]

/-- Witness for C5: alice the plain user gets exactly her own rows of
store0, mona the moderator gets all rows, and a returned note passes the
view check. -/
theorem notes_home_spec_witness :
    aliceUser.is_user = true ∧
    (notes_home aliceUser store0).1.Perm
      (store0.filter (fun n => n.user_id == aliceUser.id)) ∧
    monaMod.is_moderator = true ∧
    (notes_home monaMod store0).1.Perm store0 ∧
    (store0.map Note.id).Nodup ∧
    can_view_note aliceUser store0 note1.id = true :=
  ⟨by decide, (notes_home_spec aliceUser store0).1 (by decide),
   by decide, (notes_home_spec monaMod store0).2.1 (by decide),
   by decide,
   (notes_home_spec aliceUser store0).2.2.2 (by decide) note1 (by decide)⟩

/-- C6: on every request to the view, edit or delete route the audit
stream receives exactly one record with result DENIED when the
corresponding check denies an existing note, and none under any other
outcome (success, missing note); the records are part of the RouteResult,
emitted before the response reaches the caller. -/
theorem denied_audit_exactly_once (u : User) (s : List Note) (nid : Nat)
    (fv : Bool) (t c : String) :
    (countDenied (view_note u s nid).audit
      = if can_view_note u s nid = false ∧ (getNote s nid).isSome = true
        then 1 else 0) ∧
    (countDenied (edit_note u s nid fv t c).audit
      = if can_edit_note u s nid = false ∧ (getNote s nid).isSome = true
        then 1 else 0) ∧
    (countDenied (delete_note u s nid).audit
      = if can_delete_note u s nid = false ∧ (getNote s nid).isSome = true
        then 1 else 0) := by
  refine ⟨?_, ?_, ?_⟩
  · unfold view_note
    by_cases hv : can_view_note u s nid = true
    · cases hg : getNote s nid with
      | none => simp [hv, hg, countDenied]
      | some note => simp [hv, hg, countDenied]
    · rw [Bool.not_eq_true] at hv
      cases hg : getNote s nid with
      | none => simp [hv, hg, countDenied]
      | some note => simp [hv, hg, countDenied]
  · unfold edit_note edit_note2
    by_cases hv : can_edit_note u s nid = true
    · cases hg : getNote s nid with
      | none => simp [hv, hg, countDenied]
      | some note =>
        cases fv with
        | false => simp [hv, hg, countDenied]
        | true => simp [hv, hg, countDenied]
    · rw [Bool.not_eq_true] at hv
      cases hg : getNote s nid with
      | none => simp [hv, hg, countDenied]
      | some note => simp [hv, hg, countDenied]
  · unfold delete_note delete_note2
    by_cases hv : can_delete_note u s nid = true
    · cases hg : getNote s nid with
      | none => simp [hv, hg, countDenied]
      | some note => simp [hv, hg, countDenied]
    · rw [Bool.not_eq_true] at hv
      cases hg : getNote s nid with
      | none => simp [hv, hg, countDenied]
      | some note => simp [hv, hg, countDenied]

/-- C7: in the edit and delete routes the authorization check is repeated
on the freshly read table s2 just before the write: whenever that check
denies, the table is left untouched, and the UPDATE (or DELETE) runs
exactly when the initial check on s1 and the fresh check on s2 both
allow. -/
theorem recheck_before_write (u : User) (s1 s2 : List Note) (nid : Nat)
    (t c : String) :
    (can_edit_note u s2 nid = false →
      (edit_note2 u s1 s2 nid true t c).store = s2) ∧
    (can_edit_note u s1 nid = true → can_edit_note u s2 nid = true →
      (edit_note2 u s1 s2 nid true t c).store = updateNote s2 nid t c) ∧
    (can_delete_note u s2 nid = false →
      (delete_note2 u s1 s2 nid).store = s2) ∧
    (can_delete_note u s1 nid = true → can_delete_note u s2 nid = true →
      (delete_note2 u s1 s2 nid).store = deleteNoteRows s2 nid) := by
  refine ⟨?_, ?_, ?_, ?_⟩
  · intro h2
    unfold edit_note2
    by_cases h1 : can_edit_note u s1 nid = true
    · cases hg : getNote s1 nid with
      | none =>
        rw [can_edit_note_none u s1 nid hg] at h1
        exact absurd h1 (by simp)
      | some note => simp [h1, hg, h2]
    · rw [Bool.not_eq_true] at h1
      cases hg : getNote s1 nid with
      | none => simp [h1, hg]
      | some note => simp [h1, hg]
  · intro h1 h2
    unfold edit_note2
    cases hg : getNote s1 nid with
    | none =>
      rw [can_edit_note_none u s1 nid hg] at h1
      exact absurd h1 (by simp)
    | some note => simp [h1, hg, h2]
  · intro h2
    unfold delete_note2
    by_cases h1 : can_delete_note u s1 nid = true
    · cases hg : getNote s1 nid with
      | none =>
        rw [can_delete_note_none u s1 nid hg] at h1
        exact absurd h1 (by simp)
      | some note => simp [h1, hg, h2]
    · rw [Bool.not_eq_true] at h1
      cases hg : getNote s1 nid with
      | none => simp [h1, hg]
      | some note => simp [h1, hg]
  · intro h1 h2
    unfold delete_note2
    cases hg : getNote s1 nid with
    | none =>
      rw [can_delete_note_none u s1 nid hg] at h1
      exact absurd h1 (by simp)
    | some note => simp [h1, hg, h2]

/-- Witness for C7: alice owns note 1 in store0 and the edit check passes
there, but ownership changes concurrently to store1; the fresh check on
store1 denies, and the route leaves store1 unchanged. -/
theorem recheck_before_write_witness :
    can_edit_note aliceUser store0 1 = true ∧
    can_edit_note aliceUser store1 1 = false ∧
    (edit_note2 aliceUser store0 store1 1 true "t" "c").store = store1 :=
  ⟨by decide, by decide,
   (recheck_before_write aliceUser store0 store1 1 "t" "c").1 (by decide)⟩

/-- C8: the view check is a deterministic function of actor, note id and
table, with no hidden mutable state: in state-passing form its only
database actions are SELECTs, running it twice in a row returns the same
boolean both times and leaves the table exactly as it was. -/
theorem can_view_note_idempotent (u : User) (s : List Note) (nid : Nat) :
    (can_view_note_st u nid s).1
      = (can_view_note_st u nid (can_view_note_st u nid s).2).1 ∧
    (can_view_note_st u nid (can_view_note_st u nid s).2).2 = s ∧
    (can_view_note_st u nid s).1 = can_view_note u s nid := by
  simp [can_view_note_st_spec]

/-- C1 (divergence witness): in store0 note 99 does not exist; the view
check returns the same false that a denial returns (bob on note 1), and
all three routes answer 403 Forbidden rather than 404 Not Found for the
missing id, because the unreachable abort(404) branch sits behind a check
that already failed; no DENIED audit record is written in the missing
case. -/
theorem missing_note_conflated_with_deny :
    getNote store0 99 = none ∧
    can_view_note adaAdmin store0 99 = false ∧
    can_view_note bobUser store0 1 = false ∧
    (view_note adaAdmin store0 99).response = Response.httpError 403 ∧
    countDenied (view_note adaAdmin store0 99).audit = 0 ∧
    (edit_note adaAdmin store0 99 true "t" "c").response
      = Response.httpError 403 ∧
    (delete_note adaAdmin store0 99).response = Response.httpError 403 := by
  decide
